import Mathlib

/-
Verification of the soar CLI entry point (src/soar-cli/src/main.rs).

The file shallowly embeds `handle_cli` and `main` as pure functions that
return an event trace, the final global state and a run result.  External
effects (stdin content, the outcome of the HTTP client configuration, the
outcomes of the per-command handlers, the contents of the config file, the
current working directory, the clap argument parser) are supplied as inputs,
so that every control-flow decision taken by the Rust source is mirrored by
a decidable Lean function.
-/

set_option maxRecDepth 8000

namespace SoarCli

/-- Model of a filesystem path: an absoluteness flag plus a component list,
mirroring std::path::PathBuf as far as the source uses it. -/
structure FsPath where
  absolute : Bool
  components : List String
deriving DecidableEq, Repr

/-- Rust Path::is_absolute. -/
def FsPath.is_absolute (p : FsPath) : Bool := p.absolute

/-- Rust Path::join: an absolute argument replaces the base, a relative one
is appended. -/
def FsPath.join (base p : FsPath) : FsPath :=
  if p.absolute then p else ⟨base.absolute, base.components ++ p.components⟩

/-- Rust Path::display rendered to a string. -/
def FsPath.display (p : FsPath) : String :=
  (if p.absolute then "/" else "") ++ String.intercalate "/" p.components

/-- Modelled from the spec: soar_core::utils::build_path is part of this
repository but its source is not under src/ (only its caller at
main.rs:77 is) and the spec does not describe it; it is modelled as the
plain conversion of the argument string into a path, absolute exactly when
the string starts with a slash. -/
def build_path (s : String) : FsPath :=
  ⟨s.data.head? == some (Char.ofNat 47),
    (s.splitOn "/").filter (fun t => t ≠ "")⟩

/-- Helper for split_whitespace: walks the character list keeping the
current (reversed) token. -/
def split_whitespace_go : List Char → List Char → List String
  | [], cur => if cur.isEmpty then [] else [⟨cur.reverse⟩]
  | c :: cs, cur =>
    if c.isWhitespace then
      (if cur.isEmpty then [] else [⟨cur.reverse⟩]) ++ split_whitespace_go cs []
    else split_whitespace_go cs (c :: cur)

/-- Rust str::split_whitespace: whitespace-separated tokens, empties
dropped. -/
def split_whitespace (s : String) : List String :=
  split_whitespace_go s.data []

theorem split_whitespace_nil : split_whitespace "" = [] := rfl

/-- Fuel for the stdin-injection loop: one spare unit while the (mocked)
standard input still has unread tokens. -/
def stdinFuel : Option String → Nat
  | none => 0
  | some s => if split_whitespace s = [] then 0 else 1

/-- The argument-preprocessing loop of handle_cli (main.rs:48-63): each
argument equal to "-" triggers a fresh read of standard input; on success
the argument is removed and the whitespace tokens of what was read are
spliced in at its position (the loop index is not advanced, so spliced
tokens are themselves examined); on a failed read the argument is kept and
the index advances.  The first successful read drains stdin, so every
later read returns the empty string. stdin = none models a failing
read_to_string. -/
def preprocess_go : Option String → List String → List String
  | _, [] => []
  | stdin, a :: rest =>
    if a = "-" then
      match stdin with
      | none => a :: preprocess_go none rest
      | some s => preprocess_go (some "") (split_whitespace s ++ rest)
    else a :: preprocess_go stdin rest
termination_by stdin l => (stdinFuel stdin, l.length)
decreasing_by
  · simp [Prod.lex_iff, stdinFuel]
  · by_cases h : split_whitespace s = [] <;>
      simp [Prod.lex_iff, stdinFuel, split_whitespace_nil, h]
  · simp [Prod.lex_iff, stdinFuel]

/-- Entry point of the preprocessing phase: the raw argv is rewritten
before clap parsing. -/
def preprocess_args (stdin : Option String) (args : List String) : List String :=
  preprocess_go stdin args

/-- Closed form of the preprocessing loop for a successful stdin read
holding content s: arguments before the first "-" are kept; the first "-"
is replaced by the whitespace tokens of s (tokens that are themselves "-"
re-read the now-empty stdin and vanish); every later "-" also reads the
drained stdin and is replaced by its (empty) token list. -/
def inject_stdin (s : String) (l : List String) : List String :=
  if "-" ∈ l then
    l.takeWhile (fun a => a ≠ "-")
      ++ (split_whitespace s).filter (fun a => a ≠ "-")
      ++ ((l.dropWhile (fun a => a ≠ "-")).drop 1).filter (fun a => a ≠ "-")
  else l

/-- Io error kinds distinguished by the source (main.rs:319 matches on
NotFound; everything else is passed through). -/
inductive IoKind
  | notFound
  | permissionDenied
  | otherKind
deriving DecidableEq, Repr

/-- Model of soar_core::error::SoarError as far as handle_cli constructs or
propagates values of it: the IoError variant built at main.rs:325 carries
an action string and the underlying kind; every other error reaching
handle_cli is kept abstract as a message. -/
inductive SoarError
  | ioError (action : String) (kind : IoKind)
  | custom (msg : String)
deriving DecidableEq, Repr

/-- Rendering used by the error! logging macro on a SoarError. -/
def soarErrorMessage : SoarError → String
  | .ioError action _ => "failed " ++ action
  | .custom msg => msg

/-- Opaque model of an http HeaderMap: the source only ever builds one via
create_http_header_map and stores it. -/
structure HeaderMap where
  entries : List String
deriving DecidableEq, Repr

/-- Model of soar_dl::http_client::create_http_header_map (external crate,
modelled at its interface boundary): builds a header map from the raw
header strings. -/
def create_http_header_map (hs : List String) : HeaderMap :=
  ⟨hs⟩

/-- The mutable http-client configuration record that the closure passed to
configure_http_client (main.rs:93-102) edits. -/
structure HttpConfig where
  proxy : Option String := none
  user_agent : Option String := none
  headers : Option HeaderMap := none
deriving DecidableEq, Repr

/-- The closure passed to configure_http_client at main.rs:93-102: the
proxy field is always assigned from the flag; user_agent and headers are
overwritten only when the corresponding flag is present. -/
def http_client_closure (proxy user_agent : Option String)
    (header : Option (List String)) (c : HttpConfig) : HttpConfig :=
  let c := { c with proxy := proxy }
  let c := match user_agent with
    | some ua => { c with user_agent := some ua }
    | none => c
  match header with
  | some headers => { c with headers := some (create_http_header_map headers) }
  | none => c

/-- Fields of the Install subcommand (main.rs:126-136).  The clap
declaration itself lives in the excluded cli module; the double Option on
the portable flags reconstructs the flag-with-optional-value shape visible
from the unwrap_or_default mapping at main.rs:147-150. -/
structure InstallOpts where
  packages : List String
  force : Bool
  yes : Bool
  portable : Option (Option String)
  portable_home : Option (Option String)
  portable_config : Option (Option String)
  portable_share : Option (Option String)
  no_notes : Bool
  binary_only : Bool
  ask : Bool
deriving DecidableEq, Repr

/-- Fields of the Download subcommand (main.rs:220-235), data only; the
progress callback is an external presentation concern and carries no data
the control flow inspects. -/
structure DownloadOpts where
  links : List String
  yes : Bool
  output : Option String
  regexes : Option (List String)
  globs : Option (List String)
  match_keywords : Option (List String)
  exclude_keywords : Option (List String)
  github : List String
  gitlab : List String
  ghcr : List String
  exact_case : Bool
  extract : Bool
  extract_dir : Option String
  skip_existing : Bool
  force_overwrite : Bool
deriving DecidableEq, Repr

/-- Model of soar_dl regex patterns construction
(download::create_regex_patterns, which wraps the external soar_dl crate):
the optional flag list is defaulted to empty; pattern compilation carries
no control flow visible to handle_cli. -/
def create_regex_patterns (r : Option (List String)) : List String :=
  r.getD []

/-- The DownloadContext record built by the Download arm
(main.rs:245-258), data fields only. -/
structure DownloadContextM where
  regexes : List String
  globs : List String
  match_keywords : List String
  exclude_keywords : List String
  output : Option String
  yes : Bool
  exact_case : Bool
  extract : Bool
  extract_dir : Option String
  skip_existing : Bool
  force_overwrite : Bool
deriving DecidableEq, Repr

/-- inspect::InspectType, selecting which artifact inspect_log shows. -/
inductive InspectType
  | buildLog
  | buildScript
deriving DecidableEq, Repr

/-- The parsed subcommand (cli::Commands).  The clap declaration lives in
the excluded cli module; variants and field types are reconstructed from
their uses in handle_cli (main.rs:111-339). -/
inductive Commands
  | defConfig (external : Bool) (repositories : List String)
  | install (o : InstallOpts)
  | search (query : String) (case_sensitive : Bool) (limit : Option Nat)
  | query (q : String)
  | remove (packages : List String)
  | sync
  | update (packages : Option (List String)) (keep : Option Nat) (ask : Bool)
  | listInstalledPackages (repo_name : Option String) (count : Option Nat)
  | listPackages (repo_name : Option String)
  | log (package : String)
  | inspect (package : String)
  | run (yes : Bool) (command : Option (List String)) (pkg_id : Option String)
      (repo_name : Option String)
  | usePackage (package_name : String)
  | download (o : DownloadOpts)
  | health
  | env
  | selfCmd (action : String)
  | clean (cache : Bool) (broken_symlinks : Bool) (broken : Bool)
  | config (edit : Option (Option String))
deriving DecidableEq, Repr

/-- The parsed top-level arguments (cli::Args), reconstructed from their
uses in handle_cli: global flags plus the subcommand. -/
structure ArgsR where
  no_color : Bool := false
  config : Option String := none
  proxy : Option String := none
  user_agent : Option String := none
  header : Option (List String) := none
  profile : Option String := none
  command : Commands
deriving DecidableEq, Repr

/-- A call into one of the per-command handler functions, carrying exactly
the arguments handle_cli passes.  cleanupCache, removeBrokenSymlinks and
removeBrokenPackages are the three operations the Clean arm chains. -/
inductive HandlerCall
  | generateDefaultConfig (external : Bool) (repositories : List String)
  | installPackages (packages : List String) (force : Bool) (yes : Bool)
      (portable : Option String) (portable_home : Option String)
      (portable_config : Option String) (portable_share : Option String)
      (no_notes : Bool) (binary_only : Bool) (ask : Bool)
  | searchPackages (query : String) (case_sensitive : Bool) (limit : Option Nat)
  | queryPackage (q : String)
  | removePackages (packages : List String)
  | syncRepos
  | updatePackages (packages : Option (List String)) (keep : Option Nat) (ask : Bool)
  | listInstalled (repo_name : Option String) (count : Option Nat)
  | listAll (repo_name : Option String)
  | inspectLog (package : String) (t : InspectType)
  | runPackage (command : Option (List String)) (yes : Bool)
      (repo_name : Option String) (pkg_id : Option String)
  | useAlternatePackage (package_name : String)
  | downloadCall (ctx : DownloadContextM) (links : List String)
      (github : List String) (gitlab : List String) (ghcr : List String)
  | displayHealth
  | envShow
  | processSelfAction (action : String)
  | cleanupCache
  | removeBrokenSymlinks
  | removeBrokenPackages
  | configEdit (editor : String)
deriving DecidableEq, Repr

/-- Observable events of a handle_cli run, in order. -/
inductive Event
  | configureHttp
  | logInfo (msg : String)
  | logWarn (msg : String)
  | logError (msg : String)
  | invoke (h : HandlerCall)
deriving DecidableEq, Repr

/-- The process-wide mutable settings the source keeps in statics (COLOR,
CONFIG_PATH) together with the http-client configuration, threaded
explicitly through the embedding. -/
structure GState where
  color : Bool
  config_path : FsPath
  http : HttpConfig
deriving DecidableEq, Repr

/-- How a handle_cli run ends: normally with Ok, with a propagated
SoarError, via std::process::exit, or via a panic (unreachable! or a
failed unwrap). -/
inductive RunResult
  | ok
  | err (e : SoarError)
  | exited (code : Nat)
  | panicked
deriving DecidableEq, Repr

/-- Full outcome of a handle_cli run. -/
structure RunOut where
  trace : List Event
  state : GState
  result : RunResult
deriving DecidableEq, Repr

/-- The external world as handle_cli observes it: stdin content (none
models a failing read), the current directory, and the outcomes of every
fallible collaborator call, each supplied as an input so the embedding
stays a total function. -/
structure ExtEnv where
  stdin : Option String := none
  cwd : FsPath := ⟨true, []⟩
  httpErr : Option String := none
  initErr : Option SoarError := none
  profileErr : Option SoarError := none
  handlerErr : Option SoarError := none
  cacheErr : Option SoarError := none
  symlinkErr : Option SoarError := none
  brokenErr : Option SoarError := none
  editorErr : Option SoarError := none
  editorVar : Option String := none
  readConfigFile : Except IoKind String := .error .notFound
deriving Repr

/-- Modelled from the spec: soar_core::config::Config is part of this
repository but not under src/; only the fields its default_config
constructor receives at main.rs:321 are modelled. -/
structure ConfigData where
  external : Bool
  repositories : List String
deriving DecidableEq, Repr

/-- Modelled from the spec: Config::default_config with no external
repositories, as called at main.rs:321. -/
def default_config : ConfigData :=
  ⟨false, []⟩

/-- Model of toml::to_string_pretty (external crate) on a Config value: a
fixed deterministic rendering. -/
def toml_to_string_pretty (c : ConfigData) : String :=
  "external = " ++ (if c.external then "true" else "false")

/-- Runs one handler call whose outcome is supplied by the environment;
the question-mark operator turns a handler error into the run result. -/
def run_handler (res : Option SoarError) (h : HandlerCall) :
    List Event × RunResult :=
  ([.invoke h], match res with | some er => .err er | none => .ok)

/-- The mapping applied to each portable flag at main.rs:147-150: a flag
given without a value defaults to the empty string. -/
def map_portable (p : Option (Option String)) : Option String :=
  p.map (fun v => v.getD "")

/-- One guarded step of the Clean arm: when the condition holds the
operation is invoked and its outcome is that of the environment; otherwise
nothing happens. -/
def clean_step (cond : Bool) (res : Option SoarError) (h : HandlerCall) :
    List Event × Option SoarError :=
  if cond then ([.invoke h], res) else ([], none)

/-- The inner command match of handle_cli (main.rs:125-337), reached after
config::init and profile selection succeeded.  Each arm is translated
from the corresponding source arm; the DefConfig case corresponds to the
unreachable! arm of the source (main.rs:336). -/
def inner_dispatch (e : ExtEnv) (g : GState) : Commands → List Event × RunResult
  | .defConfig _ _ => ([], .panicked)
  | .install o =>
    if o.portable.isSome
        && (o.portable_home.isSome || o.portable_config.isSome
          || o.portable_share.isSome) then
      ([.logError "--portable cannot be used with --portable-home, --portable-config or --portable-share"],
        .exited 1)
    else
      run_handler e.handlerErr
        (.installPackages o.packages o.force o.yes
          (map_portable o.portable) (map_portable o.portable_home)
          (map_portable o.portable_config) (map_portable o.portable_share)
          o.no_notes o.binary_only o.ask)
  | .search query case_sensitive limit =>
      run_handler e.handlerErr (.searchPackages query case_sensitive limit)
  | .query q => run_handler e.handlerErr (.queryPackage q)
  | .remove packages => run_handler e.handlerErr (.removePackages packages)
  | .sync =>
    match e.handlerErr with
    | some er => ([.invoke .syncRepos], .err er)
    | none => ([.invoke .syncRepos, .logInfo "All repositories up to date"], .ok)
  | .update packages keep ask =>
      run_handler e.handlerErr (.updatePackages packages keep ask)
  | .listInstalledPackages repo_name count =>
      run_handler e.handlerErr (.listInstalled repo_name count)
  | .listPackages repo_name => run_handler e.handlerErr (.listAll repo_name)
  | .log package => run_handler e.handlerErr (.inspectLog package .buildLog)
  | .inspect package => run_handler e.handlerErr (.inspectLog package .buildScript)
  | .run yes command pkg_id repo_name =>
      run_handler e.handlerErr (.runPackage command yes repo_name pkg_id)
  | .usePackage package_name =>
      run_handler e.handlerErr (.useAlternatePackage package_name)
  | .download o =>
      run_handler e.handlerErr
        (.downloadCall
          ⟨create_regex_patterns o.regexes, o.globs.getD [],
            o.match_keywords.getD [], o.exclude_keywords.getD [],
            o.output, o.yes, o.exact_case, o.extract, o.extract_dir,
            o.skip_existing, o.force_overwrite⟩
          o.links o.github o.gitlab o.ghcr)
  | .health => run_handler e.handlerErr .displayHealth
  | .env => run_handler e.handlerErr .envShow
  | .selfCmd action => run_handler e.handlerErr (.processSelfAction action)
  | .clean cache broken_symlinks broken =>
    let unspecified := !cache && !broken_symlinks && !broken
    let s1 := clean_step (unspecified || cache) e.cacheErr .cleanupCache
    match s1.2 with
    | some er => (s1.1, .err er)
    | none =>
      let s2 := clean_step (unspecified || broken_symlinks) e.symlinkErr
        .removeBrokenSymlinks
      match s2.2 with
      | some er => (s1.1 ++ s2.1, .err er)
      | none =>
        let s3 := clean_step (unspecified || broken) e.brokenErr
          .removeBrokenPackages
        match s3.2 with
        | some er => (s1.1 ++ s2.1 ++ s3.1, .err er)
        | none => (s1.1 ++ s2.1 ++ s3.1, .ok)
  | .config edit =>
    match edit with
    | some editorOpt =>
      let editor := (editorOpt.orElse (fun _ => e.editorVar)).getD "vi"
      run_handler e.editorErr (.configEdit editor)
    | none =>
      match e.readConfigFile with
      | .ok v => ([.logInfo v], .ok)
      | .error .notFound =>
          ([.logWarn ("Config file " ++ g.config_path.display ++ " not found"),
            .logInfo (toml_to_string_pretty default_config)], .ok)
      | .error k => ([], .err (.ioError "reading config" k))

/-- The outer command match of handle_cli (main.rs:111-339): DefConfig
runs before any config loading; every other command first runs
config::init and, when a profile flag is present, set_current_profile
(setup_required_paths is modelled as succeeding). -/
def handle_command (e : ExtEnv) (profile : Option String) (g : GState) :
    Commands → List Event × RunResult
  | .defConfig external repositories =>
      run_handler e.handlerErr (.generateDefaultConfig external repositories)
  | c =>
    match e.initErr with
    | some er => ([], .err er)
    | none =>
      if profile.isSome then
        match e.profileErr with
        | some er => ([], .err er)
        | none => inner_dispatch e g c
      else inner_dispatch e g c

/-- handle_cli (main.rs:45-342): stdin-argument preprocessing, clap
parsing (supplied as a function), the no-color toggle, the config-path
override, http-client configuration (exit 1 on failure), then command
dispatch. -/
def handle_cli (e : ExtEnv) (parse : List String → ArgsR)
    (raw : List String) (g0 : GState) : RunOut :=
  let args := parse (preprocess_args e.stdin raw)
  let g1 := if args.no_color then { g0 with color := false } else g0
  let g2 := match args.config with
    | some c =>
      let p := build_path c
      let p := if p.is_absolute then p else e.cwd.join p
      { g1 with config_path := p }
    | none => g1
  match e.httpErr with
  | some msg =>
      { trace := [.configureHttp,
          .logError ("Error configuring HTTP client: " ++ msg)],
        state := g2, result := .exited 1 }
  | none =>
      let g3 := { g2 with
        http := http_client_closure args.proxy args.user_agent args.header g2.http }
      let out := handle_command e args.profile g3 args.command
      { trace := .configureHttp :: out.1, state := g3, result := out.2 }

/-- main (main.rs:344-349): an error from handle_cli is logged through
error! and nothing else happens, so the process exit status is that of a
normal return from main, namely zero; std::process::exit inside handle_cli
bypasses this and a panic aborts with the Rust panic status 101. -/
def main_run (out : RunOut) : List Event × Nat :=
  match out.result with
  | .ok => (out.trace, 0)
  | .err er => (out.trace ++ [.logError (soarErrorMessage er)], 0)
  | .exited code => (out.trace, code)
  | .panicked => (out.trace, 101)

/-- The handler calls recorded in a trace, in order. -/
def invoked_handlers (t : List Event) : List HandlerCall :=
  t.filterMap fun ev => match ev with | .invoke h => some h | _ => none

/-- Recognizes a call to install_packages. -/
def is_install_call : HandlerCall → Bool
  | .installPackages .. => true
  | _ => false

/-- The install_packages calls recorded in a trace. -/
def install_calls (t : List Event) : List HandlerCall :=
  (invoked_handlers t).filter is_install_call

/-- Recognizes the six engine entry points of the spec: SyncEngine,
InstallEngine, UpdateEngine, RemovalEngine, HealthChecker, RunExecutor. -/
def is_engine_call : HandlerCall → Bool
  | .installPackages .. => true
  | .removePackages _ => true
  | .syncRepos => true
  | .updatePackages .. => true
  | .displayHealth => true
  | .runPackage .. => true
  | _ => false

/-- One tag per dispatch arm of handle_cli. -/
inductive ArmTag
  | defConfig | install | search | query | remove | sync | update
  | listInstalled | listAll | log | inspect | run | usePackage | download
  | health | env | selfCmd | clean | config
deriving DecidableEq, Repr

/-- The dispatch arm a parsed command selects. -/
def commandTag : Commands → ArmTag
  | .defConfig _ _ => .defConfig
  | .install _ => .install
  | .search .. => .search
  | .query _ => .query
  | .remove _ => .remove
  | .sync => .sync
  | .update .. => .update
  | .listInstalledPackages .. => .listInstalled
  | .listPackages _ => .listAll
  | .log _ => .log
  | .inspect _ => .inspect
  | .run .. => .run
  | .usePackage _ => .usePackage
  | .download _ => .download
  | .health => .health
  | .env => .env
  | .selfCmd _ => .selfCmd
  | .clean .. => .clean
  | .config _ => .config

/-- The dispatch arm a handler call belongs to; inspect_log serves the Log
arm for build logs and the Inspect arm for build scripts. -/
def armTag : HandlerCall → ArmTag
  | .generateDefaultConfig .. => .defConfig
  | .installPackages .. => .install
  | .searchPackages .. => .search
  | .queryPackage _ => .query
  | .removePackages _ => .remove
  | .syncRepos => .sync
  | .updatePackages .. => .update
  | .listInstalled .. => .listInstalled
  | .listAll _ => .listAll
  | .inspectLog _ .buildLog => .log
  | .inspectLog _ .buildScript => .inspect
  | .runPackage .. => .run
  | .useAlternatePackage _ => .usePackage
  | .downloadCall .. => .download
  | .displayHealth => .health
  | .envShow => .env
  | .processSelfAction _ => .selfCmd
  | .cleanupCache => .clean
  | .removeBrokenSymlinks => .clean
  | .removeBrokenPackages => .clean
  | .configEdit _ => .config

/-- Modelled from the spec: the core never reads standard input itself
(design note, spec section 9); the handler functions invoked by handle_cli
are not under src/, so the number of stdin reads a handler performs is
modelled as zero. -/
def handler_stdin_reads (_h : HandlerCall) : Nat := 0

/-- Concrete fixture: a default external environment where every
collaborator call succeeds. -/
def env0 : ExtEnv := {}

/-- Concrete fixture: a startup global state with an absolute config
path. -/
def g0def : GState := ⟨true, ⟨true, ["etc", "soar", "config.toml"]⟩, ⟨none, none, none⟩⟩

/-- Concrete fixture: a clap parser stub returning a fixed parse of the
given command. -/
def parse_const (c : Commands) : List String → ArgsR := fun _ => { command := c }

/-- Concrete fixture: install options setting both the generic portable
flag and an individual override. -/
def o_conflict : InstallOpts :=
  ⟨["bat"], false, false, some (some "/tmp/p"), some (some "/tmp/h"),
    none, none, false, false, false⟩

/-- Concrete fixture: install options with individual portable overrides
only. -/
def o_overrides : InstallOpts :=
  ⟨["bat"], true, true, none, some (some "/tmp/h"), some none, none,
    true, false, true⟩

/-- Concrete fixture: top-level arguments carrying all three http-client
flags. -/
def args_http : ArgsR :=
  { proxy := some "proxy.internal:3128", user_agent := some "soar-test",
    header := some ["x-token: t"], command := .sync }

/-- Concrete fixture: top-level arguments carrying an absolute config
path flag. -/
def args_cfg_abs : ArgsR := { config := some "/etc/soar.toml", command := .sync }

/-- Concrete fixture: top-level arguments carrying a relative config path
flag. -/
def args_cfg_rel : ArgsR := { config := some "soar/config.toml", command := .sync }

/-- Concrete fixture: an environment where building the HTTP client
fails. -/
def env_httpfail : ExtEnv := { httpErr := some "invalid proxy" }

/-- Concrete fixture: an environment where reading the config file fails
with a permission error. -/
def env_permdenied : ExtEnv :=
  { readConfigFile := .error .permissionDenied }

/-
Theorems.
-/

theorem preprocess_go_drained (l : List String) :
    preprocess_go (some "") l = l.filter (fun a => a ≠ "-") := by
  induction l with
  | nil => simp [preprocess_go]
  | cons a rest ih =>
    by_cases h : a = "-" <;> simp [preprocess_go, h, split_whitespace_nil, ih]

theorem preprocess_go_no_dash (stdin : Option String) (l : List String)
    (h : "-" ∉ l) : preprocess_go stdin l = l := by
  induction l with
  | nil => simp [preprocess_go]
  | cons a rest ih =>
    simp only [List.mem_cons, not_or] at h
    rw [preprocess_go.eq_def]
    simp [Ne.symm h.1, ih h.2]

theorem preprocess_go_some (s : String) (l : List String) :
    preprocess_go (some s) l = inject_stdin s l := by
  induction l with
  | nil => simp [preprocess_go, inject_stdin]
  | cons a rest ih =>
    by_cases ha : a = "-"
    · subst ha
      simp [preprocess_go, inject_stdin, preprocess_go_drained,
        List.filter_append]
    · by_cases hm : "-" ∈ rest
      · simp [preprocess_go, ha, ih, inject_stdin, hm, Ne.symm ha]
      · simp [preprocess_go, ha, ih, inject_stdin, hm, Ne.symm ha,
          preprocess_go_no_dash _ _ hm]

theorem invoked_handlers_configure (l : List Event) :
    invoked_handlers (.configureHttp :: l) = invoked_handlers l := by
  simp [invoked_handlers]

theorem handle_command_inner (e : ExtEnv) (profile : Option String)
    (g : GState) (c : Commands) (hi : e.initErr = none)
    (hp : profile.isSome = true → e.profileErr = none)
    (hnd : commandTag c ≠ ArmTag.defConfig) :
    handle_command e profile g c = inner_dispatch e g c := by
  cases c
  case defConfig a b => simp [commandTag] at hnd
  all_goals
    simp only [handle_command, hi]
    by_cases h : profile.isSome = true
    · simp [h, hp h]
    · simp [h]

theorem handle_cli_inner (e : ExtEnv) (parse : List String → ArgsR)
    (raw : List String) (g0 : GState)
    (hh : e.httpErr = none) (hi : e.initErr = none)
    (hp : (parse (preprocess_args e.stdin raw)).profile.isSome = true →
      e.profileErr = none)
    (hnd : commandTag (parse (preprocess_args e.stdin raw)).command ≠
      ArmTag.defConfig) :
    (handle_cli e parse raw g0).trace =
      .configureHttp ::
        (inner_dispatch e (handle_cli e parse raw g0).state
          (parse (preprocess_args e.stdin raw)).command).1 ∧
    (handle_cli e parse raw g0).result =
      (inner_dispatch e (handle_cli e parse raw g0).state
        (parse (preprocess_args e.stdin raw)).command).2 := by
  simp only [handle_cli, hh]
  rw [handle_command_inner e _ _ _ hi hp hnd]
  exact ⟨rfl, rfl⟩

/-- C1: when the generic portable flag is set together with at least one
of portable_home, portable_config, portable_share, the Install invocation
never reaches install_packages, and on a run that would otherwise dispatch
the process exits with status 1; when the generic portable flag is absent,
any combination of the three overrides is accepted and forwarded to
install_packages. -/
theorem install_portable_conflict_rejected (e : ExtEnv)
    (parse : List String → ArgsR) (raw : List String) (g0 : GState)
    (o : InstallOpts)
    (hcmd : (parse (preprocess_args e.stdin raw)).command = .install o) :
    ((o.portable.isSome && (o.portable_home.isSome || o.portable_config.isSome
        || o.portable_share.isSome)) = true →
      install_calls (handle_cli e parse raw g0).trace = [] ∧
      (e.httpErr = none → e.initErr = none →
        ((parse (preprocess_args e.stdin raw)).profile.isSome = true →
          e.profileErr = none) →
        (handle_cli e parse raw g0).result = .exited 1)) ∧
    (o.portable = none →
      e.httpErr = none → e.initErr = none →
      ((parse (preprocess_args e.stdin raw)).profile.isSome = true →
        e.profileErr = none) →
      install_calls (handle_cli e parse raw g0).trace =
        [.installPackages o.packages o.force o.yes none
          (map_portable o.portable_home) (map_portable o.portable_config)
          (map_portable o.portable_share) o.no_notes o.binary_only o.ask]) := by
  refine ⟨fun hconf => ⟨?_, fun hh hi hp => ?_⟩, fun hport hh hi hp => ?_⟩
  · cases hh : e.httpErr with
    | some m => simp [handle_cli, hh, install_calls, invoked_handlers]
    | none =>
      cases hi : e.initErr with
      | some er =>
        simp [handle_cli, handle_command, hcmd, hh, hi, install_calls,
          invoked_handlers]
      | none =>
        by_cases hps : (parse (preprocess_args e.stdin raw)).profile.isSome = true
        · cases hpe : e.profileErr with
          | some er =>
            simp [handle_cli, handle_command, hcmd, hh, hi, hps, hpe,
              install_calls, invoked_handlers]
          | none =>
            simp [handle_cli, handle_command, inner_dispatch, hcmd, hh, hi,
              hps, hpe, hconf, install_calls, invoked_handlers]
        · simp [handle_cli, handle_command, inner_dispatch, hcmd, hh, hi,
            hps, hconf, install_calls, invoked_handlers]
  · obtain ⟨ht, hr⟩ := handle_cli_inner e parse raw g0 hh hi hp
      (by simp [hcmd, commandTag])
    rw [hr, hcmd]
    simp [inner_dispatch, hconf]
  · obtain ⟨ht, hr⟩ := handle_cli_inner e parse raw g0 hh hi hp
      (by simp [hcmd, commandTag])
    rw [ht, hcmd]
    simp [inner_dispatch, hport, run_handler, install_calls,
      invoked_handlers, is_install_call, map_portable]

/-- C6: the Install arm forwards to install_packages the package
references and exactly the options force, yes, the four portable values
(each mapped so that a flag given without a value defaults to the empty
string), no_notes, binary_only and ask, unchanged from the parsed
arguments. -/
theorem install_forwards_options (e : ExtEnv)
    (parse : List String → ArgsR) (raw : List String) (g0 : GState)
    (o : InstallOpts)
    (hcmd : (parse (preprocess_args e.stdin raw)).command = .install o)
    (hconf : (o.portable.isSome && (o.portable_home.isSome
        || o.portable_config.isSome || o.portable_share.isSome)) = false)
    (hh : e.httpErr = none) (hi : e.initErr = none)
    (hp : (parse (preprocess_args e.stdin raw)).profile.isSome = true →
      e.profileErr = none) :
    install_calls (handle_cli e parse raw g0).trace =
      [.installPackages o.packages o.force o.yes
        (map_portable o.portable) (map_portable o.portable_home)
        (map_portable o.portable_config) (map_portable o.portable_share)
        o.no_notes o.binary_only o.ask] := by
  obtain ⟨ht, hr⟩ := handle_cli_inner e parse raw g0 hh hi hp
    (by simp [hcmd, commandTag])
  rw [ht, hcmd]
  simp [inner_dispatch, hconf, run_handler, install_calls,
    invoked_handlers, is_install_call]

/-- C5: piped-input injection happens only in the CLI preprocessing step,
before command parsing: each argument equal to "-" is replaced in place by
the whitespace-separated tokens of the standard-input read it triggers
(the first successful read returns the piped content and drains stdin, so
every later occurrence receives the empty token list), and no command
handler invoked afterwards reads standard input itself. -/
theorem stdin_injection_only_in_preprocessing (s : String) (raw : List String)
    (h : HandlerCall) :
    preprocess_args (some s) raw = inject_stdin s raw ∧
    handler_stdin_reads h = 0 :=
  ⟨preprocess_go_some s raw, rfl⟩

/-- C9: when a --config path is supplied, an absolute path is stored
unchanged, a relative one is stored joined to the current working
directory, and when the current working directory is absolute the stored
active config path is always absolute. -/
theorem config_path_stored_absolute (e : ExtEnv) (parse : List String → ArgsR)
    (raw : List String) (g0 : GState) (c : String)
    (hcfg : (parse (preprocess_args e.stdin raw)).config = some c) :
    ((build_path c).is_absolute = true →
      (handle_cli e parse raw g0).state.config_path = build_path c) ∧
    ((build_path c).is_absolute = false →
      (handle_cli e parse raw g0).state.config_path = e.cwd.join (build_path c)) ∧
    (e.cwd.is_absolute = true →
      (handle_cli e parse raw g0).state.config_path.is_absolute = true) := by
  cases hh : e.httpErr <;>
    by_cases hab : (build_path c).is_absolute = true <;>
      simp [handle_cli, hcfg, hh, hab, FsPath.join, FsPath.is_absolute] <;>
        simp_all [FsPath.is_absolute]

/-- C7: on every invocation the HTTP client is configured before any
command handler runs; the proxy flag is always assigned while user agent
and headers are overwritten only when present; a configuration failure
exits with status 1 without dispatching any handler. -/
theorem http_client_configured_before_dispatch (e : ExtEnv)
    (parse : List String → ArgsR) (raw : List String) (g0 : GState) :
    (∃ rest, (handle_cli e parse raw g0).trace = .configureHttp :: rest) ∧
    (e.httpErr = none →
      (handle_cli e parse raw g0).state.http.proxy =
        (parse (preprocess_args e.stdin raw)).proxy ∧
      ((parse (preprocess_args e.stdin raw)).user_agent = none →
        (handle_cli e parse raw g0).state.http.user_agent =
          g0.http.user_agent) ∧
      (∀ ua, (parse (preprocess_args e.stdin raw)).user_agent = some ua →
        (handle_cli e parse raw g0).state.http.user_agent = some ua) ∧
      ((parse (preprocess_args e.stdin raw)).header = none →
        (handle_cli e parse raw g0).state.http.headers = g0.http.headers) ∧
      (∀ hs, (parse (preprocess_args e.stdin raw)).header = some hs →
        (handle_cli e parse raw g0).state.http.headers =
          some (create_http_header_map hs))) ∧
    (∀ msg, e.httpErr = some msg →
      (handle_cli e parse raw g0).result = .exited 1 ∧
      invoked_handlers (handle_cli e parse raw g0).trace = []) := by
  refine ⟨?_, fun hh => ?_, fun msg hmsg => ?_⟩
  · cases hh : e.httpErr <;> simp [handle_cli, hh]
  · cases hua : (parse (preprocess_args e.stdin raw)).user_agent <;>
      cases hhd : (parse (preprocess_args e.stdin raw)).header <;>
        cases hcfg : (parse (preprocess_args e.stdin raw)).config <;>
          by_cases hnc : (parse (preprocess_args e.stdin raw)).no_color = true <;>
            simp [handle_cli, hh, hua, hhd, hcfg, hnc, http_client_closure]
  · simp [handle_cli, hmsg, invoked_handlers]

/-- C8: for the Clean command with no selection flag all three cleanup
operations run, cache first, then broken symlinks, then broken packages;
with at least one flag set exactly the flagged operations run, in the same
order. -/
theorem clean_runs_selected_operations (e : ExtEnv)
    (parse : List String → ArgsR) (raw : List String) (g0 : GState)
    (cache broken_symlinks broken : Bool)
    (hcmd : (parse (preprocess_args e.stdin raw)).command =
      .clean cache broken_symlinks broken)
    (hh : e.httpErr = none) (hi : e.initErr = none)
    (hp : (parse (preprocess_args e.stdin raw)).profile.isSome = true →
      e.profileErr = none)
    (hc : e.cacheErr = none) (hsl : e.symlinkErr = none)
    (hb : e.brokenErr = none) :
    (cache = false → broken_symlinks = false → broken = false →
      invoked_handlers (handle_cli e parse raw g0).trace =
        [.cleanupCache, .removeBrokenSymlinks, .removeBrokenPackages]) ∧
    ((cache || broken_symlinks || broken) = true →
      invoked_handlers (handle_cli e parse raw g0).trace =
        (if cache then [HandlerCall.cleanupCache] else []) ++
        (if broken_symlinks then [HandlerCall.removeBrokenSymlinks] else []) ++
        (if broken then [HandlerCall.removeBrokenPackages] else [])) := by
  obtain ⟨ht, hr⟩ := handle_cli_inner e parse raw g0 hh hi hp
    (by simp [hcmd, commandTag])
  rw [ht, hcmd]
  constructor
  · intro h1 h2 h3
    subst h1; subst h2; subst h3
    simp [inner_dispatch, clean_step, hc, hsl, hb, invoked_handlers]
  · intro hone
    cases cache <;> cases broken_symlinks <;> cases broken <;>
      simp_all [inner_dispatch, clean_step, hc, hsl, hb, invoked_handlers]

/-- C10: the Config command without an editor request treats a missing
config file as success, printing the serialized default configuration;
any other read failure surfaces as a typed IoError; a successful read
prints the file content. -/
theorem config_show_missing_file_defaults (e : ExtEnv)
    (parse : List String → ArgsR) (raw : List String) (g0 : GState)
    (hcmd : (parse (preprocess_args e.stdin raw)).command = .config none)
    (hh : e.httpErr = none) (hi : e.initErr = none)
    (hp : (parse (preprocess_args e.stdin raw)).profile.isSome = true →
      e.profileErr = none) :
    (e.readConfigFile = .error .notFound →
      (handle_cli e parse raw g0).result = .ok ∧
      Event.logInfo (toml_to_string_pretty default_config) ∈
        (handle_cli e parse raw g0).trace) ∧
    (∀ k, k ≠ IoKind.notFound → e.readConfigFile = .error k →
      (handle_cli e parse raw g0).result =
        .err (.ioError "reading config" k)) ∧
    (∀ v, e.readConfigFile = .ok v →
      (handle_cli e parse raw g0).result = .ok ∧
      Event.logInfo v ∈ (handle_cli e parse raw g0).trace) := by
  obtain ⟨ht, hr⟩ := handle_cli_inner e parse raw g0 hh hi hp
    (by simp [hcmd, commandTag])
  refine ⟨fun hrc => ⟨?_, ?_⟩, fun k hk hrc => ?_, fun v hrc => ⟨?_, ?_⟩⟩
  · rw [hr, hcmd]; simp [inner_dispatch, hrc]
  · rw [ht, hcmd]; simp [inner_dispatch, hrc]
  · rw [hr, hcmd]
    cases k with
    | notFound => exact absurd rfl hk
    | permissionDenied => simp [inner_dispatch, hrc]
    | otherKind => simp [inner_dispatch, hrc]
  · rw [hr, hcmd]; simp [inner_dispatch, hrc]
  · rw [ht, hcmd]; simp [inner_dispatch, hrc]

theorem inner_dispatch_arm (e : ExtEnv) (g : GState) (c : Commands) :
    ((invoked_handlers (inner_dispatch e g c).1).all
      (fun h => armTag h == commandTag c)) = true ∧
    (invoked_handlers (inner_dispatch e g c).1).countP is_engine_call ≤ 1 := by
  cases c
  all_goals
    simp only [inner_dispatch, run_handler, clean_step]
    repeat' split
    all_goals simp_all [invoked_handlers, armTag, commandTag, is_engine_call]

theorem handle_command_arm (e : ExtEnv) (profile : Option String)
    (g : GState) (c : Commands) :
    ((invoked_handlers (handle_command e profile g c).1).all
      (fun h => armTag h == commandTag c)) = true ∧
    (invoked_handlers (handle_command e profile g c).1).countP
      is_engine_call ≤ 1 := by
  cases c
  case defConfig a b =>
    simp only [handle_command, run_handler]
    cases e.handlerErr <;>
      simp [invoked_handlers, armTag, commandTag, is_engine_call]
  all_goals
    simp only [handle_command]
    cases hi : e.initErr with
    | some er => simp [invoked_handlers]
    | none =>
      by_cases hp : profile.isSome = true
      · cases hpe : e.profileErr with
        | some er => simp [hp, hpe, invoked_handlers]
        | none =>
          simp only [hp, hpe, if_true]
          simpa using inner_dispatch_arm e g _
      · have hp' : profile.isSome = false := by simpa using hp
        simp only [hp', Bool.false_eq_true, if_false]
        simpa using inner_dispatch_arm e g _

/-- C4: every run of handle_cli invokes only handlers belonging to the
single dispatch arm selected by the parsed command, and at most one of the
six engine entry points (sync, install, update, remove, health, run) is
invoked. -/
theorem dispatch_single_handler (e : ExtEnv) (parse : List String → ArgsR)
    (raw : List String) (g0 : GState) :
    ((invoked_handlers (handle_cli e parse raw g0).trace).all
      (fun h => armTag h ==
        commandTag (parse (preprocess_args e.stdin raw)).command)) = true ∧
    (invoked_handlers (handle_cli e parse raw g0).trace).countP
      is_engine_call ≤ 1 := by
  cases hh : e.httpErr with
  | some m => simp [handle_cli, hh, invoked_handlers]
  | none =>
    simp only [handle_cli, hh]
    rw [invoked_handlers_configure]
    exact handle_command_arm _ _ _ _

/-- C2 fails on the code: a run whose command handler returns an error
(here Sync with a failing sync handler) emits the user-facing error
message, but main merely logs it and returns, so the process terminates
with exit status zero rather than non-zero. -/
theorem main_exit_zero_on_handler_error :
    (main_run (handle_cli
        { handlerErr := some (.custom "failed to sync repositories") }
        (fun _ => { command := .sync }) ["soar", "sync"]
        ⟨true, ⟨true, []⟩, ⟨none, none, none⟩⟩)).2 = 0 ∧
    Event.logError "failed to sync repositories" ∈
      (main_run (handle_cli
        { handlerErr := some (.custom "failed to sync repositories") }
        (fun _ => { command := .sync }) ["soar", "sync"]
        ⟨true, ⟨true, []⟩, ⟨none, none, none⟩⟩)).1 ∧
    (handle_cli
        { handlerErr := some (.custom "failed to sync repositories") }
        (fun _ => { command := .sync }) ["soar", "sync"]
        ⟨true, ⟨true, []⟩, ⟨none, none, none⟩⟩).result =
      .err (.custom "failed to sync repositories") := by
  decide

theorem install_portable_conflict_rejected_witness :
    install_calls (handle_cli env0 (parse_const (.install o_conflict))
      ["soar"] g0def).trace = [] ∧
    (handle_cli env0 (parse_const (.install o_conflict))
      ["soar"] g0def).result = .exited 1 ∧
    install_calls (handle_cli env0 (parse_const (.install o_overrides))
      ["soar"] g0def).trace =
      [.installPackages ["bat"] true true none (some "/tmp/h") (some "")
        none true false true] := by
  refine ⟨?_, ?_, ?_⟩
  · exact ((install_portable_conflict_rejected env0
      (parse_const (.install o_conflict)) ["soar"] g0def o_conflict rfl).1
        rfl).1
  · exact ((install_portable_conflict_rejected env0
      (parse_const (.install o_conflict)) ["soar"] g0def o_conflict rfl).1
        rfl).2 rfl rfl (fun _ => rfl)
  · have h := (install_portable_conflict_rejected env0
      (parse_const (.install o_overrides)) ["soar"] g0def o_overrides rfl).2
        rfl rfl rfl (fun _ => rfl)
    simpa [o_overrides, map_portable] using h

theorem install_forwards_options_witness :
    install_calls (handle_cli env0 (parse_const (.install o_overrides))
      ["soar", "install", "bat"] g0def).trace =
      [.installPackages ["bat"] true true none (some "/tmp/h") (some "")
        none true false true] := by
  have h := install_forwards_options env0 (parse_const (.install o_overrides))
    ["soar", "install", "bat"] g0def o_overrides rfl rfl rfl rfl
    (fun _ => rfl)
  simpa [o_overrides, map_portable] using h

theorem http_client_configured_before_dispatch_witness :
    (handle_cli env0 (fun _ => args_http) ["soar"] g0def).state.http.proxy =
      some "proxy.internal:3128" ∧
    (handle_cli env0 (fun _ => args_http) ["soar"] g0def).state.http.user_agent =
      some "soar-test" ∧
    (handle_cli env0 (fun _ => args_http) ["soar"] g0def).state.http.headers =
      some (create_http_header_map ["x-token: t"]) ∧
    (handle_cli env_httpfail (parse_const .sync) ["soar"] g0def).result =
      .exited 1 ∧
    invoked_handlers (handle_cli env_httpfail (parse_const .sync)
      ["soar"] g0def).trace = [] := by
  have h := http_client_configured_before_dispatch env0 (fun _ => args_http)
    ["soar"] g0def
  have h2 := http_client_configured_before_dispatch env_httpfail
    (parse_const .sync) ["soar"] g0def
  exact ⟨(h.2.1 rfl).1, (h.2.1 rfl).2.2.1 "soar-test" rfl,
    (h.2.1 rfl).2.2.2.2 ["x-token: t"] rfl,
    (h2.2.2 "invalid proxy" rfl).1, (h2.2.2 "invalid proxy" rfl).2⟩

theorem clean_runs_selected_operations_witness :
    invoked_handlers (handle_cli env0 (parse_const (.clean false false false))
      ["soar", "clean"] g0def).trace =
      [.cleanupCache, .removeBrokenSymlinks, .removeBrokenPackages] ∧
    invoked_handlers (handle_cli env0 (parse_const (.clean false true false))
      ["soar", "clean"] g0def).trace = [.removeBrokenSymlinks] := by
  constructor
  · exact (clean_runs_selected_operations env0
      (parse_const (.clean false false false)) ["soar", "clean"] g0def
      false false false rfl rfl rfl (fun _ => rfl) rfl rfl rfl).1 rfl rfl rfl
  · have h := (clean_runs_selected_operations env0
      (parse_const (.clean false true false)) ["soar", "clean"] g0def
      false true false rfl rfl rfl (fun _ => rfl) rfl rfl rfl).2 rfl
    simpa using h

theorem config_path_stored_absolute_witness :
    (handle_cli env0 (fun _ => args_cfg_abs) ["soar"] g0def).state.config_path =
      build_path "/etc/soar.toml" ∧
    (handle_cli env0 (fun _ => args_cfg_rel) ["soar"] g0def).state.config_path =
      env0.cwd.join (build_path "soar/config.toml") ∧
    (handle_cli env0 (fun _ => args_cfg_rel)
      ["soar"] g0def).state.config_path.is_absolute = true := by
  refine ⟨?_, ?_, ?_⟩
  · exact (config_path_stored_absolute env0 (fun _ => args_cfg_abs) ["soar"]
      g0def "/etc/soar.toml" rfl).1 (by decide)
  · exact (config_path_stored_absolute env0 (fun _ => args_cfg_rel) ["soar"]
      g0def "soar/config.toml" rfl).2.1 (by decide)
  · exact (config_path_stored_absolute env0 (fun _ => args_cfg_rel) ["soar"]
      g0def "soar/config.toml" rfl).2.2 rfl

theorem config_show_missing_file_defaults_witness :
    (handle_cli env0 (parse_const (.config none))
      ["soar", "config"] g0def).result = .ok ∧
    Event.logInfo (toml_to_string_pretty default_config) ∈
      (handle_cli env0 (parse_const (.config none))
        ["soar", "config"] g0def).trace ∧
    (handle_cli env_permdenied (parse_const (.config none))
      ["soar", "config"] g0def).result =
      .err (.ioError "reading config" .permissionDenied) := by
  have h := config_show_missing_file_defaults env0 (parse_const (.config none))
    ["soar", "config"] g0def rfl rfl rfl (fun _ => rfl)
  have h2 := config_show_missing_file_defaults env_permdenied
    (parse_const (.config none)) ["soar", "config"] g0def rfl rfl rfl
    (fun _ => rfl)
  exact ⟨(h.1 rfl).1, (h.1 rfl).2,
    h2.2.1 .permissionDenied (by decide) rfl⟩

end SoarCli
